import Mathlib

/-!
Verification development for an iPad-chatbot backend: a four-stage pipeline
(classify, search, extract, generate) with conditional error routing, plus a
session store with time-based expiry.  Each definition is a shallow embedding
of the corresponding Python function; external collaborators (the LLM, the
HTTP search backends, wall-clock time) are passed in as explicit parameters
or `Except` outcomes.
-/

set_option autoImplicit false

namespace IpadChatbot

/-- Python `str.lower()` (the code only lower-cases ASCII text). -/
def pyLower (s : String) : String :=
  String.mk (s.data.map Char.toLower)

/-- Python `str.strip()`: drop leading and trailing whitespace. -/
def pyStrip (s : String) : String :=
  String.mk
    (((s.data.dropWhile Char.isWhitespace).reverse.dropWhile
        Char.isWhitespace).reverse)

/-- Python `str.startswith(pre)`. -/
def pyStartsWith (s pre : String) : Bool :=
  pre.data.isPrefixOf s.data

/-- Scan for an occurrence of `sub` at any position of the character list. -/
def containsSubGo (sub : List Char) : List Char → Bool
  | [] => sub.isEmpty
  | c :: tl => sub.isPrefixOf (c :: tl) || containsSubGo sub tl

/-- Python substring test `sub in s`. -/
def strContains (s sub : String) : Bool :=
  containsSubGo sub.data s.data

/-- A normalized search result, the shape produced by every search backend in
`backend/utils/web_search.py`: title, url, content, source tag, timestamp. -/
structure SearchHit where
  title : String
  url : String
  content : String
  source : String
  timestamp : String
  deriving DecidableEq, Repr

/-! ## Information extractor (`backend/chatbot/ipad_agent.py`)

The pricing sub-extractor runs `re.findall(r'\$(\d{1,4}(?:,\d{3})*)', content)`.
We embed that regex directly: at each `$`, greedily take one to four digits,
then greedily take groups of a comma followed by exactly three digits; scanning
is left-to-right and non-overlapping, resuming after each match. -/

/-- Greedily take up to `n` leading decimal digits (the `\d{1,4}` part). -/
def takeDigitsUpTo : Nat → List Char → List Char
  | 0, _ => []
  | _ + 1, [] => []
  | n + 1, c :: cs => if c.isDigit then c :: takeDigitsUpTo n cs else []

/-- Greedily take leading groups of a comma followed by exactly three digits
(the `(?:,\d{3})*` part). -/
def commaGroups : List Char → List Char
  | ',' :: a :: b :: c :: rest =>
    if a.isDigit && b.isDigit && c.isDigit then
      ',' :: a :: b :: c :: commaGroups rest
    else []
  | _ => []

/-- Match the amount part of the price regex at the head of `cs`: one to four
digits then comma groups.  Returns the exact matched characters (which is also
the number of characters the regex engine consumes). -/
def matchAmount (cs : List Char) : Option (List Char) :=
  let ds := takeDigitsUpTo 4 cs
  if ds.isEmpty then none
  else some (ds ++ commaGroups (cs.drop ds.length))

/-- Left-to-right, non-overlapping scan for `\$(\d{1,4}(?:,\d{3})*)`,
returning the capture groups (the amounts without the dollar sign), as
Python `re.findall` does. -/
def findAmountsGo : List Char → List String
  | [] => []
  | c :: rest =>
    if c = '$' then
      match matchAmount rest with
      | some amt => String.mk amt :: findAmountsGo (rest.drop amt.length)
      | none => findAmountsGo rest
    else findAmountsGo rest
termination_by cs => cs.length
decreasing_by
  · simp only [List.length_cons, List.length_drop]
    omega
  · simp only [List.length_cons]
    omega
  · simp only [List.length_cons]
    omega

/-- All dollar amounts found in a string by the price regex. -/
def findAmounts (s : String) : List String :=
  findAmountsGo s.data

/-- The two keys the pricing sub-extractor can set (`prices_found`, `source`);
`none` at the call site models the empty dict it returns when no price
pattern matches. -/
structure PricingInfo where
  prices_found : List String
  source : String
  deriving DecidableEq, Repr

/-- `iPadChatbotAgent._extract_pricing`: regex-match dollar amounts in the raw
content; when any are found record them (re-prefixed with a dollar sign)
together with the result title, otherwise return the empty dict (`none`). -/
def extract_pricing (result : SearchHit) : Option PricingInfo :=
  let prices := findAmounts result.content
  if prices.isEmpty then none
  else some { prices_found := prices.map (fun p => ("$") ++ p),
              source := result.title }

/-- The two keys the specifications sub-extractor can set. -/
structure SpecInfo where
  display_info : Option String
  processor_info : Option String
  deriving DecidableEq, Repr

/-- `iPadChatbotAgent._extract_specifications`: record presence flags for
display and processor/chip mentions in the lower-cased content. -/
def extract_specifications (result : SearchHit) : SpecInfo :=
  let content := result.content
  { display_info :=
      if strContains (pyLower content) ("display") then
        some ("Display information found")
      else none,
    processor_info :=
      if strContains (pyLower content) ("processor")
          || strContains (pyLower content) ("chip") then
        some ("Processor information found")
      else none }

/-- Python `dict.update` on the specifications dict: keys present in the new
dict override, absent keys keep the old value. -/
def updateSpecs (old new : SpecInfo) : SpecInfo :=
  { display_info :=
      match new.display_info with
      | some v => some v
      | none => old.display_info,
    processor_info :=
      match new.processor_info with
      | some v => some v
      | none => old.processor_info }

/-- The fixed-shape fact mapping built by `_extract_relevant_info`, with its
empty defaults (`key_facts` through `comparisons` start empty). -/
structure FactBag where
  key_facts : List String
  specifications : SpecInfo
  pricing : Option PricingInfo
  features : List String
  troubleshooting : List String
  comparisons : List String
  deriving DecidableEq, Repr

/-- The initial `relevant_info` dict of `_extract_relevant_info`. -/
def emptyFactBag : FactBag :=
  { key_facts := [], specifications := { display_info := none, processor_info := none },
    pricing := none, features := [], troubleshooting := [], comparisons := [] }

/-- The substrings whose presence triggers the specifications sub-extractor. -/
def specTriggers : List String :=
  ["processor", "display", "storage", "ram", "battery"]

/-- The body of the `for result in search_results[:10]` loop in
`_extract_relevant_info`: a price trigger in the lower-cased content runs the
pricing sub-extractor (whose non-empty result replaces the pricing dict, as
`dict.update` with a fixed key set does), and a spec trigger runs the
specifications sub-extractor (whose non-empty result is merged in).
The loop also lower-cases the title, which the original never reads. -/
def processOneResult (acc : FactBag) (result : SearchHit) : FactBag :=
  let content := pyLower result.content
  let acc1 :=
    if strContains content ("price") || strContains content ("cost")
        || strContains content ("$") then
      match extract_pricing result with
      | some pi => { acc with pricing := some pi }
      | none => acc
    else acc
  if specTriggers.any (fun t => strContains content t) then
    let si := extract_specifications result
    if si.display_info.isSome || si.processor_info.isSome then
      { acc1 with specifications := updateSpecs acc1.specifications si }
    else acc1
  else acc1

/-- `iPadChatbotAgent._extract_relevant_info`: fold the per-result extraction
over the first 10 search results.  `query` and `query_type` are accepted but,
as in the source, never used. -/
def extract_relevant_info (search_results : List SearchHit)
    (query query_type : String) : FactBag :=
  (search_results.take 10).foldl processOneResult emptyFactBag

/-! ## Workflow orchestrator (`backend/chatbot/ipad_agent.py`)

The LangGraph nodes become state transformers on `AgentState`; each node's
external call (LLM, web search) is an explicit `Except` outcome parameter, and
a node's `except` branch writes the error field exactly as the source does.

`_build_workflow` registers, from each of `classify_query`, `search_web` and
`process_information`, BOTH an unconditional edge to the next pipeline node
(lines 91-93) AND conditional edges through `_should_handle_error` (lines
98-123).  The compiled graph follows every matching edge: after a node
finishes, all its static-edge targets plus its conditional branch target are
scheduled into the next superstep (a node triggered twice runs once).  Every
node returns the whole state dict, and `AgentState` declares no reducer
channels (the `Annotated`/`operator` imports at lines 4-5 are unused), so a
plain channel accepts only one write per superstep: whenever two nodes run in
the same superstep the run aborts with an invalid-update error instead of
completing.  `run_compiled_workflow` below embeds exactly that execution. -/

/-- The `AgentState` TypedDict; dict-valued fields become association lists
or the fixed-shape records above. -/
structure AgentState where
  query : String
  user_id : String
  query_type : String
  search_results : List SearchHit
  processed_info : FactBag
  response : String
  sources : List String
  error : String
  metadata : List (String × String)
  deriving DecidableEq, Repr

/-- `iPadChatbotAgent._should_handle_error`: route to the error handler
exactly when the error field is truthy (non-empty). -/
def should_handle_error (s : AgentState) : Bool :=
  s.error != ""

/-- `iPadChatbotAgent._handle_error`: wrap the stored error message in an
apology sentence. -/
def handle_error (s : AgentState) : AgentState :=
  { s with response :=
      ("I apologize, but I encountered an issue: ") ++ s.error
        ++ (". Please try rephrasing your question about iPads.") }

/-- `iPadChatbotAgent._classify_query` with the classifier call's outcome
passed in: on success store the category and a metadata timestamp, on an
exception store a prefixed error message. -/
def classify_query_step (outcome : Except String String)
    (classification_time : String) (s : AgentState) : AgentState :=
  match outcome with
  | Except.ok query_type =>
    { s with query_type := query_type,
             metadata := [(("classification_time"), classification_time)] }
  | Except.error e => { s with error := ("Classification error: ") ++ e }

/-- `iPadChatbotAgent._generate_search_queries`: the base query plus up to two
category-specific phrasings, capped at three. -/
def generate_search_queries (query query_type : String) : List String :=
  let base_query := ("Apple iPad ") ++ query
  let search_queries := [base_query]
  let search_queries :=
    if query_type = ("specifications") then
      search_queries ++
        [("Apple iPad ") ++ query ++ (" specs technical specifications"),
         ("iPad ") ++ query ++ (" features processor display")]
    else if query_type = ("pricing") then
      search_queries ++
        [("Apple iPad ") ++ query ++ (" price cost"),
         ("iPad ") ++ query ++ (" pricing Apple Store")]
    else if query_type = ("comparison") then
      search_queries ++
        [("Apple iPad ") ++ query ++ (" comparison vs"),
         ("iPad ") ++ query ++ (" differences compare")]
    else if query_type = ("troubleshooting") then
      search_queries ++
        [("iPad ") ++ query ++ (" troubleshooting fix problem"),
         ("iPad ") ++ query ++ (" support help")]
    else if query_type = ("availability") then
      search_queries ++
        [("Apple iPad ") ++ query ++ (" availability in stock"),
         ("iPad ") ++ query ++ (" release date available")]
    else search_queries
  search_queries.take 3

/-- `iPadChatbotAgent._search_web` with the search tool passed in as an
outcome: on success concatenate the results of the generated query variants,
on an exception anywhere in the loop store a prefixed error message. -/
def search_web_step (outcome : Except String (String → List SearchHit))
    (s : AgentState) : AgentState :=
  match outcome with
  | Except.ok searchFn =>
    { s with search_results :=
        ((generate_search_queries s.query s.query_type).map searchFn).flatten }
  | Except.error e => { s with error := ("Search error: ") ++ e }

/-- `iPadChatbotAgent._process_information`: run the extractor and record the
urls of the first five raw results as sources. -/
def process_information_step (s : AgentState) : AgentState :=
  { s with processed_info := extract_relevant_info s.search_results s.query s.query_type,
           sources := (s.search_results.take 5).map (fun r => r.url) }

/-- `iPadChatbotAgent._generate_response` with the response generator's
outcome passed in: on success store the response, on an exception store a
prefixed error message. -/
def generate_response_step (outcome : Except String String)
    (s : AgentState) : AgentState :=
  match outcome with
  | Except.ok response => { s with response := response }
  | Except.error e => { s with error := ("Response generation error: ") ++ e }

/-- The six `workflow.add_edge` calls of `_build_workflow` (lines 90-95):
the unconditional edges, including the three that duplicate the conditional
routing's `continue` targets. -/
def builder_edges : List (String × String) :=
  [(("START"), ("classify_query")),
   (("classify_query"), ("search_web")),
   (("search_web"), ("process_information")),
   (("process_information"), ("generate_response")),
   (("generate_response"), ("END")),
   (("handle_error"), ("END"))]

/-- The unconditional-edge targets of a node. -/
def static_targets (node : String) : List String :=
  (builder_edges.filter (fun e => e.1 = node)).map (fun e => e.2)

/-- The three `workflow.add_conditional_edges` calls (lines 98-123): each of
the first three pipeline nodes routes through `_should_handle_error` to
`handle_error` on `error` and to the next pipeline node on `continue`. -/
def conditional_target (node : String) (s : AgentState) : Option String :=
  if node = ("classify_query") then
    some (if should_handle_error s then ("handle_error") else ("search_web"))
  else if node = ("search_web") then
    some (if should_handle_error s then ("handle_error") else ("process_information"))
  else if node = ("process_information") then
    some (if should_handle_error s then ("handle_error") else ("generate_response"))
  else none

/-- All nodes a finished node triggers into the next superstep: every
static-edge target plus the conditional branch target. -/
def triggered (node : String) (s : AgentState) : List String :=
  static_targets node ++
    (match conditional_target node s with
     | some t => [t]
     | none => [])

/-- Drop duplicate task names, keeping first occurrences (a node triggered
through several edges executes once per superstep). -/
def dedupFirstGo (seen : List String) : List String → List String
  | [] => []
  | x :: xs =>
    if seen.contains x then dedupFirstGo seen xs
    else x :: dedupFirstGo (x :: seen) xs

/-- Deduplicated task list of a superstep. -/
def dedupFirst (l : List String) : List String :=
  dedupFirstGo [] l

/-- Dispatch a node name to its state transformer (the five nodes added by
`_build_workflow`). -/
def node_update (classifyFn searchFn processFn generateFn : AgentState → AgentState)
    (node : String) (s : AgentState) : AgentState :=
  if node = ("classify_query") then classifyFn s
  else if node = ("search_web") then searchFn s
  else if node = ("process_information") then processFn s
  else if node = ("generate_response") then generateFn s
  else if node = ("handle_error") then handle_error s
  else s

/-- One superstep at a time: an empty frontier ends the run with the current
state; a single task runs its node and schedules the nodes it triggers
(`END` is not a task); two or more tasks would each write the whole state
dict into plain, reducer-less channels, so the run aborts with the
invalid-update error; exhausted fuel is the graph recursion limit. -/
def stepGraph (fns : String → AgentState → AgentState) :
    Nat → List String → AgentState → Except String AgentState
  | _, [], s => Except.ok s
  | 0, _ :: _, _ => Except.error ("GraphRecursionError: recursion limit reached")
  | fuel + 1, [node], s =>
    let s2 := fns node s
    stepGraph fns fuel
      ((dedupFirst (triggered node s2)).filter (fun n => n != ("END"))) s2
  | _ + 1, _ :: _ :: _, _ =>
    Except.error
      ("InvalidUpdateError: multiple tasks wrote the same state channels in one superstep")

/-- The compiled workflow's execution: start at the target of the `START`
edge with the default recursion limit of 25 supersteps. -/
def run_compiled_workflow
    (classifyFn searchFn processFn generateFn : AgentState → AgentState)
    (s0 : AgentState) : Except String AgentState :=
  stepGraph (node_update classifyFn searchFn processFn generateFn) 25
    (static_targets ("START")) s0

/-- The mapping returned by `iPadChatbotAgent.process_query`: exactly the keys
`response`, `sources`, `query_type` and `metadata`. -/
structure QueryResult where
  response : String
  sources : List String
  query_type : String
  metadata : List (String × String)
  deriving DecidableEq, Repr

/-- The `initial_state` dict built at the top of `process_query`. -/
def initial_state (query user_id : String) : AgentState :=
  { query := query, user_id := user_id, query_type := "", search_results := [],
    processed_info := emptyFactBag, response := "", sources := [], error := "",
    metadata := [] }

/-- `iPadChatbotAgent.process_query`: run the workflow on the initial state;
on success project the four result fields, and on any workflow failure
(`run` yielding an exception) return the generic apology with the `error`
category tag and the exception text in the metadata.  Total by construction:
both outcomes of `run` produce a `QueryResult`. -/
def process_query (run : AgentState → Except String AgentState)
    (query user_id : String) : QueryResult :=
  match run (initial_state query user_id) with
  | Except.ok final =>
    { response := final.response, sources := final.sources,
      query_type := final.query_type, metadata := final.metadata }
  | Except.error e =>
    { response := ("I apologize, but I\x27m having trouble processing your request right now. Please try again."),
      sources := [], query_type := ("error"), metadata := [(("error"), e)] }

/-! ## Query classifier (`backend/utils/query_classifier.py`) -/

/-- The keys of `QueryClassifier.categories`: the closed category set. -/
def categories : List String :=
  ["specifications", "pricing", "comparison", "availability",
   "troubleshooting", "features", "accessories", "setup", "updates",
   "general"]

/-- `QueryClassifier.classify_with_context` with the LLM call's outcome passed
in: trim and lower-case the reply, keep it if it is one of the category keys,
otherwise degrade to `general`; an exception also degrades to `general`. -/
def classify_with_context (llmOutcome : Except String String) : String :=
  match llmOutcome with
  | Except.error _ => ("general")
  | Except.ok content =>
    let category := pyLower (pyStrip content)
    if categories.contains category then category else ("general")

/-- `QueryClassifier.classify`: delegates to `classify_with_context` with an
empty context (the context only alters the prompt the LLM oracle consumes). -/
def classify (llmOutcome : Except String String) : String :=
  classify_with_context llmOutcome

/-! ## Web search tool (`backend/utils/web_search.py`)

Each `_search_*` method already converts its own transport failures and
non-2xx statuses into an empty result list, so the backends appear here as
plain result lists (empty both for "not configured", "failed" and "returned
nothing"); the two API backends additionally carry their credential flag. -/

/-- The outcome of each live search method of `WebSearchTool`, in the order
`search_real_time` tries them. -/
structure SearchBackends where
  serpapiEnabled : Bool
  serpapiResults : List SearchHit
  googleEnabled : Bool
  googleResults : List SearchHit
  duckduckgoResults : List SearchHit
  appleDirectResults : List SearchHit
  deriving DecidableEq, Repr

/-- `WebSearchTool._get_enhanced_mock_results`: canned results keyed by simple
substring matches on the lower-cased query; `current_year`, `current_date` and
`nowIso` stand for the `datetime.now()` interpolations. -/
def get_enhanced_mock_results (query current_year current_date nowIso : String) :
    List SearchHit :=
  let query_lower := pyLower query
  if strContains query_lower ("price") || strContains query_lower ("cost") then
    [{ title := ("iPad Pricing ") ++ current_year ++ (" - Apple Store"),
       url := ("https://www.apple.com/shop/buy-ipad"),
       content := ("Current iPad pricing as of ") ++ current_date
         ++ (": iPad Pro 11-inch starts at $799, iPad Pro 12.9-inch starts at $1,099, iPad Air starts at $599, iPad (10th generation) starts at $449, and iPad mini starts at $499. Educational pricing available. Query context: ")
         ++ query,
       source := ("mock_pricing"), timestamp := nowIso },
     { title := ("iPad Models Price Comparison ") ++ current_year,
       url := ("https://www.apple.com/ipad/compare"),
       content := ("Compare iPad prices across all models. Features vary by price point including display technology, processor, storage options, and connectivity. All models support Apple Pencil. Related to: ")
         ++ query,
       source := ("mock_comparison"), timestamp := nowIso }]
  else if strContains query_lower ("spec") || strContains query_lower ("technical") then
    [{ title := ("iPad Technical Specifications ") ++ current_year ++ (" - Apple Support"),
       url := ("https://support.apple.com/kb/SP885"),
       content := ("Technical specifications for iPad models ") ++ current_year
         ++ (": M2 chip in iPad Pro, M1 chip in iPad Air, A14 Bionic in standard iPad, A15 Bionic in iPad mini. Liquid Retina displays with True Tone. Up to 2TB storage. Query: ")
         ++ query,
       source := ("mock_specs"), timestamp := nowIso }]
  else if strContains query_lower ("troubleshoot") || strContains query_lower ("problem")
      || strContains query_lower ("fix") then
    [{ title := ("iPad Troubleshooting Guide ") ++ current_year ++ (" - Apple Support"),
       url := ("https://support.apple.com/guide/ipad"),
       content := ("Troubleshoot common iPad issues: charging problems, display issues, app crashes, connectivity problems. Step-by-step solutions and diagnostic tools available. Updated for iPadOS 17. Issue: ")
         ++ query,
       source := ("mock_support"), timestamp := nowIso }]
  else
    [{ title := ("iPad ") ++ current_year ++ (" - Apple"),
       url := ("https://www.apple.com/ipad"),
       content := ("Discover iPad models for ") ++ current_year
         ++ (": iPad Pro with M2 chip for professional workflows, iPad Air with M1 chip for versatile performance, standard iPad for everyday tasks, and iPad mini for portability. All feature advanced displays and Apple Pencil support. Query context: ")
         ++ query,
       source := ("mock_general"), timestamp := nowIso },
     { title := ("What\x27s New in iPadOS ") ++ current_year,
       url := ("https://www.apple.com/ipados"),
       content := ("Latest iPadOS features include enhanced multitasking, improved Stage Manager, new productivity tools, and updated apps optimized for iPad. Available for all supported iPad models. Related to: ")
         ++ query,
       source := ("mock_ipados"), timestamp := nowIso }]

/-- `WebSearchTool.search_real_time`: try SerpAPI (if credentialed), Google
Custom Search (if credentialed), DuckDuckGo HTML scraping, then — for
iPad/Apple queries — direct Apple pages; the first non-empty result list
wins, and when every live method fails or comes back empty, fall back to the
enhanced mock results.  An exception escaping the chain also falls back to
the mock results, so only the empty-list outcomes need representing. -/
def search_real_time (b : SearchBackends)
    (query current_year current_date nowIso : String) : List SearchHit :=
  if b.serpapiEnabled && !b.serpapiResults.isEmpty then b.serpapiResults
  else if b.googleEnabled && !b.googleResults.isEmpty then b.googleResults
  else if !b.duckduckgoResults.isEmpty then b.duckduckgoResults
  else if (strContains (pyLower query) ("ipad") || strContains (pyLower query) ("apple"))
      && !b.appleDirectResults.isEmpty then b.appleDirectResults
  else get_enhanced_mock_results query current_year current_date nowIso

/-! ## Response generator (`backend/utils/response_generator.py`) -/

/-- The `emoji_map` of `_get_type_emoji`. -/
def emoji_map : List (String × String) :=
  [("specifications", "⚙️"), ("pricing", "💰"), ("comparison", "⚖️"),
   ("troubleshooting", "🔧"), ("availability", "📦"), ("features", "✨"),
   ("accessories", "🎯"), ("setup", "🚀"), ("updates", "🔄"),
   ("general", "ℹ️")]

/-- `ResponseGenerator._get_type_emoji`: `emoji_map.get(query_type, "")`. -/
def get_type_emoji (query_type : String) : String :=
  (emoji_map.lookup query_type).getD ""

/-- `urlparse(url).netloc`: the text between the scheme separator and the
first slash, query or fragment delimiter. -/
def urlNetloc (url : String) : String :=
  if strContains url ("://") then
    (((((url.splitOn ("://")).getD 1 "").splitOn ("/")).headD "").splitOn ("?")).headD ""
      |>.splitOn ("#") |>.headD ""
  else ""

/-- Python `str.title()` for ASCII text: upper-case each letter that starts a
run of letters, lower-case the remaining letters. -/
def titlecaseGo : Bool → List Char → List Char
  | _, [] => []
  | prevCased, c :: cs =>
    if c.isAlpha then
      (if prevCased then c.toLower else c.toUpper) :: titlecaseGo true cs
    else c :: titlecaseGo false cs

/-- Python `str.title()` on a string. -/
def titlecase (s : String) : String :=
  String.mk (titlecaseGo false s.data)

/-- `ResponseGenerator._get_readable_source_name`: special-case Apple domains
and search engines, otherwise title-case the host with `www.` stripped. -/
def get_readable_source_name (url : String) : String :=
  if strContains url ("apple.com") then
    if strContains url ("support.apple.com") then ("Apple Support")
    else if strContains url ("shop") then ("Apple Store")
    else ("Apple Official")
  else if strContains url ("serpapi") || strContains url ("google") then
    ("Web Search")
  else titlecase ((urlNetloc url).replace ("www.") "")

/-- The cited source list built at line 151 of `_format_response`:
`[src for src in sources if src and src.startswith('http')][:3]`. -/
def valid_sources (sources : List String) : List String :=
  (sources.filter (fun src => src != "" && pyStartsWith src ("http"))).take 3

/-- The numbered markdown citation lines `_format_response` appends, one per
valid source. -/
def sourceLines (vs : List String) : String :=
  String.join (vs.enum.map (fun p =>
    ("\n") ++ toString (p.1 + 1) ++ (". [") ++ get_readable_source_name p.2
      ++ ("](") ++ p.2 ++ (")")))

/-- `ResponseGenerator._format_response`: trim the raw reply, prefix the
category glyph when one exists, append the citation block when any valid
sources exist, then append the freshness line (`current_time` stands for the
`datetime.now()` interpolation). -/
def format_response (response : String) (sources : List String)
    (query_type current_time : String) : String :=
  let formatted_response := pyStrip response
  let type_emoji := get_type_emoji query_type
  let formatted_response :=
    if type_emoji != "" then type_emoji ++ (" ") ++ formatted_response
    else formatted_response
  let formatted_response :=
    if !sources.isEmpty then
      if !(valid_sources sources).isEmpty then
        formatted_response ++ ("\n\n📚 **Sources:**")
          ++ sourceLines (valid_sources sources)
      else formatted_response
    else formatted_response
  formatted_response ++ ("\n\n*Information current as of ") ++ current_time ++ ("*")

/-- The `general` entry of `fallback_responses`. -/
def general_fallback_text (current_date : String) : String :=
  ("For comprehensive information about iPads including the latest ")
    ++ current_date
    ++ (" specifications, pricing, and features, please visit Apple\x27s official iPad page at apple.com/ipad.")

/-- The `fallback_responses` dict of `_generate_fallback_response`, keyed by
category (`current_date` stands for the `datetime.now()` interpolation). -/
def fallback_responses (current_date : String) : List (String × String) :=
  [(("specifications"),
    ("I\x27d be happy to help you with iPad specifications. For the most current and detailed technical specifications as of ")
      ++ current_date
      ++ (", I recommend checking Apple\x27s official website at apple.com/ipad or visiting an Apple Store where you can see the devices in person.")),
   (("pricing"),
    ("For current iPad pricing information as of ") ++ current_date
      ++ (", please visit Apple\x27s official website at apple.com/shop/buy-ipad or contact your local Apple Store. Prices may vary by region and are subject to change, and Apple sometimes offers special deals for students and educators.")),
   (("comparison"),
    ("To compare different iPad models with the latest ") ++ current_date
      ++ (" specifications, I recommend using Apple\x27s comparison tool at apple.com/ipad/compare where you can see detailed side-by-side comparisons of features, specifications, and pricing.")),
   (("troubleshooting"),
    ("For troubleshooting your iPad, please visit Apple Support at support.apple.com/ipad where you\x27ll find updated guides for ")
      ++ current_date
      ++ (", or contact Apple Support directly for personalized assistance with your specific issue.")),
   (("availability"),
    ("For current iPad availability and stock information as of ") ++ current_date
      ++ (", please check Apple\x27s website at apple.com/ipad or contact your local Apple Store for real-time inventory updates.")),
   (("features"),
    ("iPad offers many powerful features that are regularly updated. For detailed information about the latest iPad capabilities and features as of ")
      ++ current_date
      ++ (", please visit apple.com/ipad to explore all the current functionality.")),
   (("accessories"),
    ("Apple offers various iPad accessories including Apple Pencil, Magic Keyboard, and Smart Covers. For the complete ")
      ++ current_date
      ++ (" selection and compatibility information, visit apple.com/ipad/accessories.")),
   (("setup"),
    ("For help setting up your iPad with the latest ") ++ current_date
      ++ (" instructions, visit Apple\x27s setup guide at support.apple.com/ipad or use the built-in Setup Assistant on your device.")),
   (("updates"),
    ("For information about the latest iPadOS updates and features as of ")
      ++ current_date
      ++ (", check Settings > General > Software Update on your iPad or visit apple.com/ipados.")),
   (("general"), general_fallback_text current_date)]

/-- `ResponseGenerator._generate_fallback_response`: the apology sentence
followed by the category-keyed static fallback, with the `general` entry
as the default for unknown categories. -/
def generate_fallback_response (query query_type current_date : String) : String :=
  let base_response :=
    ((fallback_responses current_date).lookup query_type).getD
      (general_fallback_text current_date)
  ("I apologize, but I\x27m having trouble accessing the latest search results right now. ")
    ++ base_response

/-- `ResponseGenerator.generate_with_context` with the LLM call's outcome
passed in: on success post-process the reply with `_format_response`, on any
failure reaching the LLM return the category-keyed static fallback. -/
def generate_with_context (llmOutcome : Except String String)
    (query query_type : String) (sources : List String)
    (current_date current_time : String) : String :=
  match llmOutcome with
  | Except.ok content => format_response content sources query_type current_time
  | Except.error _ => generate_fallback_response query query_type current_date

/-! ## Session store and HTTP endpoints (`backend/main.py`)

`datetime` values become a logical clock (`Nat`), supplied at each call site;
the `user_sessions` dict becomes an association list keyed by session id. -/

/-- One entry of `ConversationSession.messages`, as built by `add_message`. -/
structure SessionMessage where
  role : String
  content : String
  timestamp : Nat
  query_type : Option String
  sources : List String
  deriving DecidableEq, Repr

/-- `ConversationSession`: id, ordered message list, creation and
last-activity timestamps. -/
structure ConversationSession where
  session_id : String
  messages : List SessionMessage
  created_at : Nat
  last_activity : Nat
  deriving DecidableEq, Repr

/-- The `ConversationSession.__init__` constructor. -/
def mkSession (session_id : String) (now : Nat) : ConversationSession :=
  { session_id := session_id, messages := [], created_at := now,
    last_activity := now }

/-- `ConversationSession.add_message`: append a turn (with `sources or []`
for a missing source list) and refresh the last-activity timestamp. -/
def add_message (s : ConversationSession) (role content : String) (now : Nat)
    (query_type : Option String) (sources : Option (List String)) :
    ConversationSession :=
  { s with
      messages := s.messages ++
        [{ role := role, content := content, timestamp := now,
           query_type := query_type, sources := sources.getD [] }],
      last_activity := now }

/-- `SESSION_TIMEOUT = timedelta(hours=24)`, in seconds. -/
def SESSION_TIMEOUT : Nat := 24 * 60 * 60

/-- `ConversationSession.is_expired`: the inactivity gap strictly exceeds the
24-hour window (truncated subtraction matches the Python comparison, which is
false whenever `last_activity` is not in the past by more than the window). -/
def is_expired (now : Nat) (s : ConversationSession) : Bool :=
  decide (SESSION_TIMEOUT < now - s.last_activity)

/-- The `user_sessions` dict. -/
abbrev SessionStore : Type := List (String × ConversationSession)

/-- `cleanup_expired_sessions`: delete every expired session. -/
def cleanup_expired_sessions (store : SessionStore) (now : Nat) : SessionStore :=
  List.filter (fun p => !is_expired now p.2) store

/-- The body returned by `GET /session/{session_id}`. -/
structure SessionView where
  session_id : String
  created_at : Nat
  last_activity : Nat
  messages : List SessionMessage
  message_count : Nat
  deriving DecidableEq, Repr

/-- `get_session` (`GET /session/{session_id}`): a 404 client error when the
id is not in the store, otherwise the session info with
`message_count = len(session.messages)`.  This endpoint does not itself run
the housekeeping sweep. -/
def get_session (store : SessionStore) (session_id : String) :
    Except Nat SessionView :=
  match List.lookup session_id store with
  | none => Except.error 404
  | some s =>
    Except.ok { session_id := session_id, created_at := s.created_at,
                last_activity := s.last_activity, messages := s.messages,
                message_count := s.messages.length }

/-- One entry of the `GET /sessions` listing. -/
structure SessionInfo where
  session_id : String
  created_at : Nat
  last_activity : Nat
  message_count : Nat
  deriving DecidableEq, Repr

/-- `list_sessions` (`GET /sessions`): run the housekeeping sweep, then list
the surviving sessions; returns the swept store (the mutation of the global
dict) together with the listing. -/
def list_sessions (store : SessionStore) (now : Nat) :
    SessionStore × List SessionInfo :=
  let store := cleanup_expired_sessions store now
  (store,
   store.map (fun p =>
     { session_id := p.1, created_at := p.2.created_at,
       last_activity := p.2.last_activity,
       message_count := p.2.messages.length }))

/-- `create_session` (`POST /session/create`): insert a fresh empty session
under a new id. -/
def create_session (store : SessionStore) (session_id : String) (now : Nat) :
    SessionStore :=
  store ++ [(session_id, mkSession session_id now)]

/-- In-place mutation of `user_sessions[sid]` (the session object mutated by
`add_message` lives in the dict). -/
def storeSet (store : SessionStore) (sid : String) (s : ConversationSession) :
    SessionStore :=
  store.map (fun p => if p.1 = sid then (sid, s) else p)

/-- The body of `ChatResponse`. -/
structure ChatResponse where
  response : String
  sources : List String
  query_type : String
  session_id : String
  metadata : List (String × String)
  deriving DecidableEq, Repr

/-- Modelled from the spec: `iPadChatbotAgent.process_query_with_context`,
which `POST /chat` awaits at `backend/main.py:235`, is not defined under
`src/` (only `process_query` is).  Per spec section 4.1 the orchestrator's
entry point never raises to its caller and returns the four-field mapping
`{response, sources, category, metadata}`, so the call appears in `chat_turn`
as a total parameter `agentResult : QueryResult`. -/
def agent_call_contract (agentResult : QueryResult) : QueryResult :=
  agentResult

/-- `chat` (`POST /chat`): reuse the referenced session when its non-empty id
is present in the store, otherwise create a fresh one; append the user turn,
await the agent (the spec-modelled total call above), append the assistant
turn with its category and sources, and return the `ChatResponse`.
`t_user` and `t_assistant` are the two `datetime.now()` readings taken by the
two `add_message` calls. -/
def chat_turn (store : SessionStore) (sessionIdOpt : Option String)
    (freshId msg : String) (agentResult : QueryResult)
    (t_user t_assistant : Nat) : SessionStore × ChatResponse :=
  let sid :=
    match sessionIdOpt with
    | some s => if s != "" && (List.lookup s store).isSome then s else freshId
    | none => freshId
  let store1 :=
    if (List.lookup sid store).isSome then store
    else store ++ [(sid, mkSession sid t_user)]
  let session := (List.lookup sid store1).getD (mkSession sid t_user)
  let session := add_message session ("user") msg t_user none none
  let result := agent_call_contract agentResult
  let session := add_message session ("assistant") result.response t_assistant
    (some result.query_type) (some result.sources)
  let store2 := storeSet store1 sid session
  (store2,
   { response := result.response, sources := result.sources,
     query_type := result.query_type, session_id := sid,
     metadata := result.metadata })

/-- Timestamps of a message list are in chronological (non-decreasing)
order. -/
def chronological : List SessionMessage → Bool
  | a :: b :: rest => Nat.ble a.timestamp b.timestamp && chronological (b :: rest)
  | _ => true

/-- Modelled from the spec: "every entry starts with a well-formed absolute
URL scheme" — the wording of the citation property (spec sections 4.5 and 8).
A well-formed absolute URL of the schemes the filter is after begins with the
scheme name and the `://` separator.  This is the spec-side predicate to be
compared against the code's actual filter. -/
def startsWithAbsoluteUrlScheme (s : String) : Bool :=
  pyStartsWith s ("http://") || pyStartsWith s ("https://")

/-! ## Theorems -/

/-- `processOneResult` only ever writes the `pricing` and `specifications`
groups: the other four fact groups pass through untouched. -/
theorem processOneResult_frame (acc : FactBag) (r : SearchHit) :
    (processOneResult acc r).key_facts = acc.key_facts ∧
    (processOneResult acc r).features = acc.features ∧
    (processOneResult acc r).troubleshooting = acc.troubleshooting ∧
    (processOneResult acc r).comparisons = acc.comparisons := by
  unfold processOneResult
  dsimp only
  refine ⟨?_, ?_, ?_, ?_⟩ <;> (repeat' split) <;> rfl

/-- Folding `processOneResult` over any hit list preserves the four fact
groups the extractor never writes. -/
theorem foldl_processOneResult_frame (l : List SearchHit) (acc : FactBag) :
    ((l.foldl processOneResult acc).key_facts = acc.key_facts ∧
     (l.foldl processOneResult acc).features = acc.features ∧
     (l.foldl processOneResult acc).troubleshooting = acc.troubleshooting ∧
     (l.foldl processOneResult acc).comparisons = acc.comparisons) := by
  induction l generalizing acc with
  | nil => simp
  | cons hd tl ih =>
    obtain ⟨h1, h2, h3, h4⟩ := ih (processOneResult acc hd)
    obtain ⟨g1, g2, g3, g4⟩ := processOneResult_frame acc hd
    simp only [List.foldl_cons]
    exact ⟨h1.trans g1, h2.trans g2, h3.trans g3, h4.trans g4⟩

/-- C1: for every query, `process_query` never raises: both outcomes of the
workflow run produce a `QueryResult` (a structure with exactly the keys
`response`, `sources`, `query_type`, `metadata`); on success the four final
state fields are projected, and on any workflow failure the response is the
user-facing apology string, the category tag is `error`, and the metadata
carries the error under the `error` key. -/
theorem claim_C1_process_query_never_raises
    (run : AgentState → Except String AgentState) (query user_id : String) :
    (∀ fs, run (initial_state query user_id) = Except.ok fs →
      process_query run query user_id =
        { response := fs.response, sources := fs.sources,
          query_type := fs.query_type, metadata := fs.metadata }) ∧
    (∀ e, run (initial_state query user_id) = Except.error e →
      (process_query run query user_id).response =
        ("I apologize, but I\x27m having trouble processing your request right now. Please try again.") ∧
      (process_query run query user_id).query_type = ("error") ∧
      List.lookup ("error") (process_query run query user_id).metadata = some e) := by
  constructor
  · intro fs h
    simp [process_query, h]
  · intro e h
    simp [process_query, h, List.lookup]

/-- Witness for C1, at a run that succeeds with the initial state and a run
that fails with `boom`. -/
theorem claim_C1_witness :
    (process_query (fun s => Except.ok s) ("q") ("u") =
      { response := "", sources := [], query_type := "", metadata := [] }) ∧
    ((process_query (fun _ => Except.error ("boom")) ("q") ("u")).response =
        ("I apologize, but I\x27m having trouble processing your request right now. Please try again.") ∧
      (process_query (fun _ => Except.error ("boom")) ("q") ("u")).query_type = ("error") ∧
      List.lookup ("error")
        (process_query (fun _ => Except.error ("boom")) ("q") ("u")).metadata =
          some ("boom")) :=
  ⟨(claim_C1_process_query_never_raises (fun s => Except.ok s) ("q") ("u")).1
      (initial_state ("q") ("u")) rfl,
   (claim_C1_process_query_never_raises (fun _ => Except.error ("boom")) ("q") ("u")).2
      ("boom") rfl⟩

/-- On any state with a non-empty error field, each of the first three nodes
triggers BOTH its unconditional-edge successor and `handle_error` into the
next superstep: the transition to the error handler is not unconditional. -/
theorem triggered_error_fanout (s : AgentState) (h : s.error ≠ "") :
    dedupFirst (triggered ("classify_query") s) =
      [("search_web"), ("handle_error")] ∧
    dedupFirst (triggered ("search_web") s) =
      [("process_information"), ("handle_error")] ∧
    dedupFirst (triggered ("process_information") s) =
      [("generate_response"), ("handle_error")] := by
  have hb : should_handle_error s = true := by
    simp [should_handle_error, h]
  refine ⟨?_, ?_, ?_⟩ <;>
    simp [triggered, static_targets, conditional_target, builder_edges, hb,
      dedupFirst, dedupFirstGo]

/-- C2 fails on the code: when the error field is non-empty after a pipeline
step, the duplicate unconditional edges schedule the next pipeline node
alongside `handle_error`, the two full-state writes to plain channels abort
the run, and `process_query` returns the generic apology — the run never
terminates with the stored error message wrapped in the `handle_error`
apology sentence.  Evaluated at a classification failure (`LLM down`); the
`continue` half of the claim does hold: with an empty error field after every
step the run executes the four nodes in sequence. -/
theorem claim_C2_duplicate_edges_break_error_routing :
    run_compiled_workflow (classify_query_step (Except.error ("LLM down")) ("t0"))
        (search_web_step (Except.ok (fun _ => []))) process_information_step
        (generate_response_step (Except.ok ("r"))) (initial_state ("q") ("u")) =
      Except.error
        ("InvalidUpdateError: multiple tasks wrote the same state channels in one superstep") ∧
    (process_query
        (run_compiled_workflow (classify_query_step (Except.error ("LLM down")) ("t0"))
          (search_web_step (Except.ok (fun _ => []))) process_information_step
          (generate_response_step (Except.ok ("r")))) ("q") ("u")).response =
      ("I apologize, but I\x27m having trouble processing your request right now. Please try again.") ∧
    (process_query
        (run_compiled_workflow (classify_query_step (Except.error ("LLM down")) ("t0"))
          (search_web_step (Except.ok (fun _ => []))) process_information_step
          (generate_response_step (Except.ok ("r")))) ("q") ("u")).query_type =
      ("error") ∧
    (process_query
        (run_compiled_workflow (classify_query_step (Except.error ("LLM down")) ("t0"))
          (search_web_step (Except.ok (fun _ => []))) process_information_step
          (generate_response_step (Except.ok ("r")))) ("q") ("u")).response ≠
      ("I apologize, but I encountered an issue: Classification error: LLM down. Please try rephrasing your question about iPads.") ∧
    run_compiled_workflow (classify_query_step (Except.ok ("pricing")) ("t0"))
        (search_web_step (Except.ok (fun _ => []))) process_information_step
        (generate_response_step (Except.ok ("r"))) (initial_state ("q") ("u")) =
      Except.ok
        (generate_response_step (Except.ok ("r"))
          (process_information_step
            (search_web_step (Except.ok (fun _ => []))
              (classify_query_step (Except.ok ("pricing")) ("t0")
                (initial_state ("q") ("u")))))) := by
  refine ⟨rfl, rfl, rfl, by decide, rfl⟩

/-- C3: for every LLM outcome — success with any reply, or a failed call —
`classify` returns a member of the fixed closed category set, returning
`general` on a failed call and on any reply whose trimmed, lower-cased form
is outside the set. -/
theorem claim_C3_classify_closed_set (llmOutcome : Except String String) :
    classify llmOutcome ∈ categories ∧
    (∀ e, llmOutcome = Except.error e → classify llmOutcome = ("general")) ∧
    (∀ content, llmOutcome = Except.ok content →
      pyLower (pyStrip content) ∉ categories → classify llmOutcome = ("general")) := by
  refine ⟨?_, ?_, ?_⟩
  · cases llmOutcome with
    | error e =>
      show ("general") ∈ categories
      decide
    | ok content =>
      simp only [classify, classify_with_context]
      by_cases h : pyLower (pyStrip content) ∈ categories
      · rw [if_pos (List.elem_iff.mpr h)]
        exact h
      · rw [if_neg (fun hc => h (List.elem_iff.mp hc))]
        decide
  · intro e h
    subst h
    rfl
  · intro content h hmem
    subst h
    simp only [classify, classify_with_context]
    rw [if_neg (fun hc => hmem (List.elem_iff.mp hc))]

/-- Witness for C3, at a failed call and at a hallucinated multi-word
label. -/
theorem claim_C3_witness :
    classify (Except.error ("timeout")) = ("general") ∧
    classify (Except.ok ("pricing comparison")) = ("general") :=
  ⟨(claim_C3_classify_closed_set (Except.error ("timeout"))).2.1 ("timeout") rfl,
   (claim_C3_classify_closed_set (Except.ok ("pricing comparison"))).2.2
      ("pricing comparison") rfl (by decide)⟩

/-- C7: the extractor is deterministic — its FactBag depends only on its
arguments, so two calls on equal hit lists, queries and categories yield
identical FactBag contents. -/
theorem claim_C7_extract_deterministic (h1 h2 : List SearchHit)
    (q1 q2 c1 c2 : String) (e1 : h1 = h2) (e2 : q1 = q2) (e3 : c1 = c2) :
    extract_relevant_info h1 q1 c1 = extract_relevant_info h2 q2 c2 := by
  subst e1
  subst e2
  subst e3
  rfl

/-- Witness for C7, at a concrete pricing-flavoured hit list. -/
theorem claim_C7_witness :
    extract_relevant_info
        [{ title := ("T"), url := ("u"), content := ("price is $499"),
           source := ("s"), timestamp := ("ts") }] ("q") ("pricing") =
      extract_relevant_info
        [{ title := ("T"), url := ("u"), content := ("price is $499"),
           source := ("s"), timestamp := ("ts") }] ("q") ("pricing") :=
  claim_C7_extract_deterministic _ _ _ _ _ _ rfl rfl rfl

/-- C10: for every hit list, query and category, the extractor leaves the
`key_facts`, `features`, `troubleshooting` and `comparisons` groups at their
empty defaults — no code path ever writes them. -/
theorem claim_C10_extract_only_pricing_and_specs
    (hits : List SearchHit) (q c : String) :
    (extract_relevant_info hits q c).key_facts = [] ∧
    (extract_relevant_info hits q c).features = [] ∧
    (extract_relevant_info hits q c).troubleshooting = [] ∧
    (extract_relevant_info hits q c).comparisons = [] := by
  have h := foldl_processOneResult_frame (hits.take 10) emptyFactBag
  simpa [extract_relevant_info, emptyFactBag] using h

/-- C4: when every live search method fails or returns no results (each
backend's result list is empty, which covers missing credentials, transport
failures and empty answers alike), `search_real_time` returns exactly the
enhanced mock results, and that canned fallback set is never empty. -/
theorem claim_C4_search_mock_fallback (b : SearchBackends)
    (query current_year current_date nowIso : String)
    (h1 : b.serpapiResults = []) (h2 : b.googleResults = [])
    (h3 : b.duckduckgoResults = []) (h4 : b.appleDirectResults = []) :
    search_real_time b query current_year current_date nowIso =
      get_enhanced_mock_results query current_year current_date nowIso ∧
    search_real_time b query current_year current_date nowIso ≠ [] := by
  have hs : search_real_time b query current_year current_date nowIso =
      get_enhanced_mock_results query current_year current_date nowIso := by
    simp [search_real_time, h1, h2, h3, h4]
  refine ⟨hs, ?_⟩
  rw [hs]
  unfold get_enhanced_mock_results
  dsimp only
  split
  · simp
  · split
    · simp
    · split <;> simp

/-- Witness for C4, at fully unconfigured backends and a query hitting the
general mock branch. -/
theorem claim_C4_witness :
    search_real_time
        { serpapiEnabled := false, serpapiResults := [], googleEnabled := false,
          googleResults := [], duckduckgoResults := [], appleDirectResults := [] }
        ("hello") ("2025") ("2025-10-12") ("iso") =
      get_enhanced_mock_results ("hello") ("2025") ("2025-10-12") ("iso") ∧
    search_real_time
        { serpapiEnabled := false, serpapiResults := [], googleEnabled := false,
          googleResults := [], duckduckgoResults := [], appleDirectResults := [] }
        ("hello") ("2025") ("2025-10-12") ("iso") ≠ [] :=
  claim_C4_search_mock_fallback _ ("hello") ("2025") ("2025-10-12") ("iso")
    rfl rfl rfl rfl

/-- C5: when the LLM call inside the generation stage fails, the generator
returns the static fallback sentence keyed by the category (with the
`general` sentence for unknown categories) instead of propagating the error;
because the generator catches the failure itself, the workflow's generation
step receives a successful outcome, leaves the state's error field untouched,
and therefore can never be routed through the shared error handler. -/
theorem claim_C5_generation_failure_stays_local
    (e query query_type : String) (sources : List String)
    (current_date current_time : String) (s : AgentState) :
    (generate_response_step
        (Except.ok (generate_with_context (Except.error e) query query_type
          sources current_date current_time)) s).error = s.error ∧
    should_handle_error
        (generate_response_step
          (Except.ok (generate_with_context (Except.error e) query query_type
            sources current_date current_time)) s) = should_handle_error s ∧
    (generate_response_step
        (Except.ok (generate_with_context (Except.error e) query query_type
          sources current_date current_time)) s).response =
      ("I apologize, but I\x27m having trouble accessing the latest search results right now. ")
        ++ (((fallback_responses current_date).lookup query_type).getD
              (general_fallback_text current_date)) ∧
    ((fallback_responses current_date).lookup query_type = none →
      (generate_response_step
          (Except.ok (generate_with_context (Except.error e) query query_type
            sources current_date current_time)) s).response =
        ("I apologize, but I\x27m having trouble accessing the latest search results right now. ")
          ++ general_fallback_text current_date) := by
  refine ⟨rfl, rfl, rfl, ?_⟩
  intro h
  simp [generate_response_step, generate_with_context,
    generate_fallback_response, h]

/-- Witness for C5, at a category outside the fallback table. -/
theorem claim_C5_witness :
    (generate_response_step
        (Except.ok (generate_with_context (Except.error ("timeout")) ("q")
          ("nonsense") [] ("October 2025") ("now"))) (initial_state ("q") ("u"))).response =
      ("I apologize, but I\x27m having trouble accessing the latest search results right now. ")
        ++ general_fallback_text ("October 2025") :=
  (claim_C5_generation_failure_stays_local ("timeout") ("q") ("nonsense") []
      ("October 2025") ("now") (initial_state ("q") ("u"))).2.2.2 (by decide)

/-- C6 counterexample: the citation filter keeps any non-empty string that
merely begins with the four characters `http`, so a source such as
`httpbogus` is cited although it does not start with a well-formed absolute
URL scheme.  The claim as stated is therefore false. -/
theorem claim_C6_counterexample :
    ¬ (∀ src ∈ valid_sources [("httpbogus")],
        startsWithAbsoluteUrlScheme src = true) := by
  decide

/-- C6 as amended: for every input source list, the cited list has length at
most 3 and every cited entry is non-empty and starts with the literal prefix
`http` (which admits every `http://` and `https://` URL but does not
guarantee a well-formed absolute URL). -/
theorem claim_C6_amended_citation_filter (sources : List String) :
    (valid_sources sources).length ≤ 3 ∧
    (∀ src ∈ valid_sources sources,
      src ≠ "" ∧ pyStartsWith src ("http") = true) := by
  constructor
  · simp only [valid_sources]
    exact List.length_take_le 3 _
  · intro src hsrc
    have h1 : src ∈ sources.filter (fun src => src != "" && pyStartsWith src ("http")) :=
      List.take_subset _ _ hsrc
    have h2 := List.of_mem_filter h1
    simp only [Bool.and_eq_true, bne_iff_ne, ne_eq] at h2
    exact ⟨h2.1, h2.2⟩

/-- Witness for C6 (amended), at a well-formed absolute URL. -/
theorem claim_C6_witness :
    ("http://a") ≠ "" ∧ pyStartsWith ("http://a") ("http") = true :=
  (claim_C6_amended_citation_filter [("http://a")]).2 ("http://a") (by decide)

/-- A key all of whose bindings a filter rejects cannot be looked up in the
filtered association list. -/
theorem lookup_filter_none (store : SessionStore) (sid : String)
    (keep : String × ConversationSession → Bool)
    (h : ∀ p ∈ store, p.1 = sid → keep p = false) :
    List.lookup sid (List.filter keep store) = none := by
  induction store with
  | nil => rfl
  | cons hd tl ih =>
    obtain ⟨k, v⟩ := hd
    simp only [List.filter_cons]
    by_cases hk : keep (k, v) = true
    · rw [if_pos hk]
      have hne : (sid == k) = false := by
        rcases eq_or_ne k sid with he | he
        · exact absurd hk (by simp [h (k, v) (by simp) he])
        · simp [he.symm]
      simp only [List.lookup, hne]
      exact ih fun p hp he => h p (by simp [hp]) he
    · rw [if_neg hk]
      exact ih fun p hp he => h p (by simp [hp]) he

/-- C9: every session stored under an id whose last activity lies further in
the past than the 24-hour inactivity window is removed by the housekeeping
sweep: after `cleanup_expired_sessions` runs the id is absent from the store,
the `list_sessions` result (which itself sweeps first) never mentions it, and
lookup by the id fails with the 404 session-not-found client error. -/
theorem claim_C9_expired_session_absent (store : SessionStore) (now : Nat)
    (sid : String)
    (h : ∀ p ∈ store, p.1 = sid → p.2.last_activity + SESSION_TIMEOUT < now) :
    List.lookup sid (cleanup_expired_sessions store now) = none ∧
    (∀ info ∈ (list_sessions store now).2, info.session_id ≠ sid) ∧
    get_session (cleanup_expired_sessions store now) sid = Except.error 404 := by
  have hexp : ∀ p ∈ store, p.1 = sid → (!is_expired now p.2) = false := by
    intro p hp he
    have hlt := h p hp he
    simp only [is_expired, Bool.not_eq_false', decide_eq_true_eq] at *
    omega
  have hl : List.lookup sid (cleanup_expired_sessions store now) = none :=
    lookup_filter_none store sid _ hexp
  refine ⟨hl, ?_, ?_⟩
  · intro info hinfo heq
    simp only [list_sessions] at hinfo
    obtain ⟨p, hp, hinfoeq⟩ := List.mem_map.1 hinfo
    have hmem := List.mem_filter.1 hp
    have hsid : p.1 = sid := by
      rw [← heq, ← hinfoeq]
    exact absurd hmem.2 (by simp [hexp p hmem.1 hsid])
  · simp [get_session, hl]

/-- Witness for C9, at a store holding one session idle for far longer than
the window. -/
theorem claim_C9_witness :
    List.lookup ("s") (cleanup_expired_sessions [(("s"), mkSession ("s") 0)] 100000) = none ∧
    (∀ info ∈ (list_sessions [(("s"), mkSession ("s") 0)] 100000).2,
      info.session_id ≠ ("s")) ∧
    get_session (cleanup_expired_sessions [(("s"), mkSession ("s") 0)] 100000) ("s") =
      Except.error 404 :=
  claim_C9_expired_session_absent [(("s"), mkSession ("s") 0)] 100000 ("s")
    (by decide)

/-- C8: create a session, send two chat turns referencing it (with the two
timestamp readings of each turn in clock order), then fetch it: the session
view holds exactly the four turns — user, assistant, user, assistant — so
`message_count = 4`, and the turn timestamps are in chronological order.
The agent call of each turn is the spec-modelled total
`process_query_with_context` result. -/
theorem claim_C8_two_turns_message_count
    (sid freshId1 freshId2 m1 m2 : String) (r1 r2 : QueryResult)
    (t0 t1 t2 t3 t4 : Nat) (hsid : sid ≠ "")
    (h12 : t1 ≤ t2) (h23 : t2 ≤ t3) (h34 : t3 ≤ t4) :
    get_session
        (chat_turn
          (chat_turn (create_session [] sid t0) (some sid) freshId1 m1 r1 t1 t2).1
          (some sid) freshId2 m2 r2 t3 t4).1 sid =
      Except.ok
        { session_id := sid, created_at := t0, last_activity := t4,
          messages :=
            [{ role := ("user"), content := m1, timestamp := t1,
               query_type := none, sources := [] },
             { role := ("assistant"), content := r1.response, timestamp := t2,
               query_type := some r1.query_type, sources := r1.sources },
             { role := ("user"), content := m2, timestamp := t3,
               query_type := none, sources := [] },
             { role := ("assistant"), content := r2.response, timestamp := t4,
               query_type := some r2.query_type, sources := r2.sources }],
          message_count := 4 } ∧
    chronological
        [{ role := ("user"), content := m1, timestamp := t1,
           query_type := none, sources := [] },
         { role := ("assistant"), content := r1.response, timestamp := t2,
           query_type := some r1.query_type, sources := r1.sources },
         { role := ("user"), content := m2, timestamp := t3,
           query_type := none, sources := [] },
         { role := ("assistant"), content := r2.response, timestamp := t4,
           query_type := some r2.query_type, sources := r2.sources }] = true := by
  constructor
  · simp [chat_turn, create_session, get_session, mkSession, add_message,
      storeSet, agent_call_contract, List.lookup, hsid]
  · simp only [chronological, Bool.and_eq_true, Nat.ble_eq]
    exact ⟨h12, h23, h34, trivial⟩

/-- Witness for C8, at concrete ids, messages, agent results and clock
readings. -/
theorem claim_C8_witness :
    get_session
        (chat_turn
          (chat_turn (create_session [] ("s") 0) (some ("s")) ("f1") ("hi")
            { response := ("r1"), sources := [("http://a")],
              query_type := ("pricing"), metadata := [] } 1 2).1
          (some ("s")) ("f2") ("more")
          { response := ("r2"), sources := [], query_type := ("general"),
            metadata := [] } 3 4).1 ("s") =
      Except.ok
        { session_id := ("s"), created_at := 0, last_activity := 4,
          messages :=
            [{ role := ("user"), content := ("hi"), timestamp := 1,
               query_type := none, sources := [] },
             { role := ("assistant"), content := ("r1"), timestamp := 2,
               query_type := some ("pricing"), sources := [("http://a")] },
             { role := ("user"), content := ("more"), timestamp := 3,
               query_type := none, sources := [] },
             { role := ("assistant"), content := ("r2"), timestamp := 4,
               query_type := some ("general"), sources := [] }],
          message_count := 4 } ∧
    chronological
        [{ role := ("user"), content := ("hi"), timestamp := 1,
           query_type := none, sources := [] },
         { role := ("assistant"), content := ("r1"), timestamp := 2,
           query_type := some ("pricing"), sources := [("http://a")] },
         { role := ("user"), content := ("more"), timestamp := 3,
           query_type := none, sources := [] },
         { role := ("assistant"), content := ("r2"), timestamp := 4,
           query_type := some ("general"), sources := [] }] = true :=
  claim_C8_two_turns_message_count ("s") ("f1") ("f2") ("hi") ("more")
    { response := ("r1"), sources := [("http://a")], query_type := ("pricing"),
      metadata := [] }
    { response := ("r2"), sources := [], query_type := ("general"),
      metadata := [] }
    0 1 2 3 4 (by decide) (by decide) (by decide) (by decide)

end IpadChatbot
